import Mathlib

/-!
Shallow embedding of the NodeMCU RFID firmware core components
(`firmware/nodemcu-rfid/api_client.cpp` and
`firmware/nodemcu-rfid/state_machine.cpp`).

Modelling conventions:
* ArduinoJson documents are modelled by the inductive `JValue`; a response
  body that fails `deserializeJson` is modelled as `none : Option JValue`.
* The ArduinoJson defaulting operator `doc["k"] | d` is modelled by
  `jBoolD`/`jStrD`/`jNatD` applied to `jGet`: a missing key, a non-object
  receiver, or a value of the wrong type yields the default.
* The HTTP transport is a function `Nat → Attempt` giving, for each attempt
  index, the status code `http.POST()`/`http.GET()` would return and the
  parse result of the body that `http.getString()` would produce.
* `millis()` timestamps are passed explicitly as `Nat` arguments; the
  32-bit unsigned subtraction `millis() - stateEnteredAt` is `usub32`.
* Client/state-machine objects are immutable records; every member
  function returns the updated record.
-/

/-- Modulus of the 32-bit unsigned arithmetic used by `millis()`. -/
def UINT32_MOD : Nat := 4294967296

/-- Unsigned 32-bit subtraction `a - b` as computed on `unsigned long`. -/
def usub32 (a b : Nat) : Nat :=
  (a + (UINT32_MOD - b % UINT32_MOD)) % UINT32_MOD

/-- Model of an ArduinoJson document value (the protocol uses no arrays). -/
inductive JValue where
  | null : JValue
  | bool (b : Bool) : JValue
  | num (n : Int) : JValue
  | str (s : String) : JValue
  | obj (fields : List (String × JValue)) : JValue

/-- Lookup of a key in an object's field list (first match, as ArduinoJson). -/
def jGetList : List (String × JValue) → String → JValue
  | [], _ => JValue.null
  | (k, v) :: rest, key => if k = key then v else jGetList rest key

/-- Model of `doc["key"]`: null on a non-object receiver or a missing key. -/
def jGet : JValue → String → JValue
  | JValue.obj fields, key => jGetList fields key
  | _, _ => JValue.null

/-- Model of `variant | d` at type `bool`. -/
def jBoolD : JValue → Bool → Bool
  | JValue.bool b, _ => b
  | _, d => d

/-- Model of `variant | d` at string type. -/
def jStrD : JValue → String → String
  | JValue.str s, _ => s
  | _, d => d

/-- Model of `variant | d` at type `uint32_t`: out-of-range numbers fall
back to the default, as ArduinoJson conversion does. -/
def jNatD : JValue → Nat → Nat
  | JValue.num n, d => if 0 ≤ n ∧ n < (UINT32_MOD : Int) then n.toNat else d
  | _, d => d

/-- Model of `variant.isNull()`, used for the chained `a | b | d` operator
which takes the first non-null variant. -/
def jIsNull : JValue → Bool
  | JValue.null => true
  | _ => false

/-- Membership test for a key, model of `doc.containsKey("k")`. -/
def jHasKey : JValue → String → Bool
  | JValue.obj fields, key => fields.any (fun p => p.1 = key)
  | _, _ => false

/-- One transport attempt: the status code the HTTP call returns and the
parse result of the response body (irrelevant when the code is ≤ 0). -/
structure Attempt where
  code : Int
  body : Option JValue

/-- Result of `sendPostRequest`/`sendGetRequest`: final status code, parsed
body of the attempt that answered (none if no attempt answered), and the
number of attempts performed. -/
structure RequestResult where
  code : Int
  body : Option JValue
  attempts : Nat

/-- `API_MAX_RETRIES` from `api_client.h`. -/
def API_MAX_RETRIES : Nat := 3

/-- The retry loop shared by `sendPostRequest` and `sendGetRequest`:
attempt `i`; a positive status code returns immediately with the body,
otherwise retry until the fuel (remaining iterations) is exhausted, finally
returning the last status code. -/
def retryLoop (t : Nat → Attempt) : Nat → Nat → Int → RequestResult
  | 0, i, last => ⟨last, none, i⟩
  | fuel + 1, i, _ =>
    if 0 < (t i).code then ⟨(t i).code, (t i).body, i + 1⟩
    else retryLoop t fuel (i + 1) (t i).code

/-- Model of `APIClient::sendPostRequest` (the URL, headers and delays have
no effect on the returned classification and are omitted). -/
def sendPostRequest (t : Nat → Attempt) : RequestResult :=
  retryLoop t API_MAX_RETRIES 0 (-1)

/-- Model of `APIClient::sendGetRequest`; the loop structure is identical
to the POST variant. -/
def sendGetRequest (t : Nat → Attempt) : RequestResult :=
  retryLoop t API_MAX_RETRIES 0 (-1)

/-- The mutable fields of `APIClient` relevant to its observable behaviour. -/
structure Client where
  serverUrl : String
  apiKey : String
  deviceId : Nat
deriving DecidableEq

/-- The `APIClient` constructor: empty strings and device id 0. -/
def clientInit : Client := ⟨"", "", 0⟩

/-- Model of `APIClient::begin`: store the URL (one trailing slash
stripped) and the key; `deviceId` is untouched. -/
def clientBegin (c : Client) (serverUrl apiKey : String) : Client :=
  let s := if serverUrl.endsWith "/" then serverUrl.dropRight 1 else serverUrl
  ⟨s, apiKey, c.deviceId⟩

/-- Model of `APIClient::isConfigured`. -/
def isConfigured (c : Client) : Bool :=
  0 < c.serverUrl.length && 0 < c.apiKey.length

/-- Mirror of the C++ `ValidationResponse` struct. -/
structure ValidationResponse where
  success : Bool
  valid : Bool
  deviceId : Nat
  schoolId : Nat
  message : String
deriving DecidableEq

/-- Mirror of the C++ `AttendanceResponse` struct. -/
structure AttendanceResponse where
  success : Bool
  studentName : String
  status : String
  message : String
  errorCode : String
deriving DecidableEq

/-- Mirror of the C++ `PairingResponse` struct. -/
structure PairingResponse where
  success : Bool
  studentName : String
  message : String
  sessionActive : Bool
deriving DecidableEq

/-- Result of one client operation: the response value, the client state
after the call, and the number of transport attempts performed. -/
structure OpResult (α : Type) where
  resp : α
  client : Client
  attempts : Nat

/-- Model of `APIClient::validateAPIKey`. -/
def validateAPIKey (c : Client) (t : Nat → Attempt) : OpResult ValidationResponse :=
  if isConfigured c = false then
    ⟨⟨false, false, 0, 0, "API not configured"⟩, c, 0⟩
  else
    let r := sendPostRequest t
    if r.code = 200 then
      match r.body with
      | some j =>
        let success := jBoolD (jGet j "success") false
        let message := jStrD (jGet j "message") ""
        if success = true then
          let data := jGet j "data"
          let valid := jBoolD (jGet data "valid") false
          let did := jNatD (jGet data "device_id") 0
          let sid := jNatD (jGet data "school_id") 0
          let c' := if valid = true ∧ 0 < did then { c with deviceId := did } else c
          ⟨⟨true, valid, did, sid, message⟩, c', r.attempts⟩
        else
          ⟨⟨false, false, 0, 0, message⟩, c, r.attempts⟩
      | none => ⟨⟨false, false, 0, 0, "JSON parse error"⟩, c, r.attempts⟩
    else
      ⟨⟨false, false, 0, 0, "HTTP error: " ++ toString r.code⟩, c, r.attempts⟩

/-- Model of `APIClient::recordAttendance`. -/
def recordAttendance (c : Client) (t : Nat → Attempt) (rfidCode : String) :
    OpResult AttendanceResponse :=
  if isConfigured c = false then
    ⟨⟨false, "", "", "API not configured", ""⟩, c, 0⟩
  else
    let r := sendPostRequest t
    if r.code = 200 then
      match r.body with
      | some j =>
        let topSuccess := jBoolD (jGet j "success") false
        let data := jGet j "data"
        let studentName := jStrD (jGet data "student_name") ""
        let tv := jGet data "type"
        let status := jStrD (if jIsNull tv = true then jGet data "status" else tv) ""
        let message := jStrD (jGet data "message") ""
        let success0 := topSuccess || jBoolD (jGet data "success") false
        let success := if 0 < studentName.length then true else success0
        ⟨⟨success, studentName, status, message, ""⟩, c, r.attempts⟩
      | none => ⟨⟨false, "", "", "JSON parse error", ""⟩, c, r.attempts⟩
    else if r.code = 400 ∨ r.code = 404 then
      match r.body with
      | some j =>
        let errorObj := jGet j "error"
        ⟨⟨false, "", "", jStrD (jGet errorObj "message") "",
          jStrD (jGet errorObj "code") ""⟩, c, r.attempts⟩
      | none => ⟨⟨false, "", "", "card_not_found", ""⟩, c, r.attempts⟩
    else
      ⟨⟨false, "", "", "HTTP error: " ++ toString r.code, ""⟩, c, r.attempts⟩

/-- Model of `APIClient::processPairing`. -/
def processPairing (c : Client) (t : Nat → Attempt) (rfidCode : String) :
    OpResult PairingResponse :=
  if isConfigured c = false then
    ⟨⟨false, "", "API not configured", false⟩, c, 0⟩
  else
    let r := sendPostRequest t
    if r.code = 200 then
      match r.body with
      | some j =>
        ⟨⟨jBoolD (jGet j "success") false, jStrD (jGet j "student_name") "",
          jStrD (jGet j "message") "", false⟩, c, r.attempts⟩
      | none => ⟨⟨false, "", "JSON parse error", false⟩, c, r.attempts⟩
    else if r.code = 409 then
      ⟨⟨false, "", "card_already_used", false⟩, c, r.attempts⟩
    else if r.code = 400 then
      match r.body with
      | some j =>
        ⟨⟨false, "", jStrD (jGet j "message") "Bad request", false⟩, c, r.attempts⟩
      | none => ⟨⟨false, "", "Bad request", false⟩, c, r.attempts⟩
    else
      ⟨⟨false, "", "HTTP error: " ++ toString r.code, false⟩, c, r.attempts⟩

/-- Model of `APIClient::checkPairingStatus`. -/
def checkPairingStatus (c : Client) (t : Nat → Attempt) : OpResult PairingResponse :=
  if isConfigured c = false ∨ c.deviceId = 0 then
    ⟨⟨false, "", "", false⟩, c, 0⟩
  else
    let r := sendGetRequest t
    if r.code = 200 then
      match r.body with
      | some j =>
        let success := jBoolD (jGet j "success") false
        if success = true ∧ jHasKey j "data" = true then
          let data := jGet j "data"
          ⟨⟨success, jStrD (jGet data "student_name") "", "",
            jBoolD (jGet data "active") false⟩, c, r.attempts⟩
        else
          ⟨⟨success, "", "", false⟩, c, r.attempts⟩
      | none => ⟨⟨false, "", "", false⟩, c, r.attempts⟩
    else
      ⟨⟨false, "", "", false⟩, c, r.attempts⟩

/-- Mirror of the C++ `DeviceState` enum. -/
inductive DeviceState where
  | INITIALIZING
  | CONNECTING_WIFI
  | VALIDATING_API
  | IDLE
  | PROCESSING_CARD
  | PAIRING_MODE
  | SHOWING_RESULT
  | ERROR_WIFI
  | ERROR_API
deriving DecidableEq

/-- Mirror of the `StateMachine` fields. -/
structure StateMachine where
  currentState : DeviceState
  previousState : DeviceState
  pairingStudentName : String
  stateEnteredAt : Nat
deriving DecidableEq

/-- The `StateMachine` constructor. -/
def stateMachineInit : StateMachine :=
  ⟨DeviceState.INITIALIZING, DeviceState.INITIALIZING, "", 0⟩

/-- Model of `StateMachine::setState`; `now` is the `millis()` value at the
time of the call. -/
def setState (st : StateMachine) (newState : DeviceState) (now : Nat) : StateMachine :=
  if newState ≠ st.currentState then
    { st with previousState := st.currentState, currentState := newState,
              stateEnteredAt := now }
  else st

/-- Model of `StateMachine::getState`. -/
def getState (st : StateMachine) : DeviceState := st.currentState

/-- Model of `StateMachine::enterPairingMode`. -/
def enterPairingMode (st : StateMachine) (studentName : String) (now : Nat) :
    StateMachine :=
  setState { st with pairingStudentName := studentName } DeviceState.PAIRING_MODE now

/-- Model of `StateMachine::exitPairingMode`. -/
def exitPairingMode (st : StateMachine) (now : Nat) : StateMachine :=
  setState { st with pairingStudentName := "" } DeviceState.IDLE now

/-- Model of `StateMachine::getCurrentStudentName`. -/
def getCurrentStudentName (st : StateMachine) : String := st.pairingStudentName

/-- Model of `StateMachine::getTimeInState` at `millis() = now`. -/
def getTimeInState (st : StateMachine) (now : Nat) : Nat :=
  usub32 now st.stateEnteredAt

/-- Model of `StateMachine::hasTimedOut` at `millis() = now`. -/
def hasTimedOut (st : StateMachine) (now : Nat) (timeout : Nat) : Bool :=
  decide (timeout ≤ getTimeInState st now)

/-! ## Helper lemmas -/

/-- A transition to a fresh mode writes all three transition fields. -/
theorem setState_of_ne (st : StateMachine) (m : DeviceState) (now : Nat)
    (h : m ≠ st.currentState) :
    setState st m now =
      { st with previousState := st.currentState, currentState := m,
                stateEnteredAt := now } := by
  simp [setState, h]

/-- A transition to the mode already current is the identity. -/
theorem setState_self (st : StateMachine) (m : DeviceState) (now : Nat)
    (h : st.currentState = m) : setState st m now = st := by
  simp [setState, h]

/-- After `setState`, the requested mode is current. -/
theorem setState_currentState (st : StateMachine) (m : DeviceState) (now : Nat) :
    (setState st m now).currentState = m := by
  by_cases h : m = st.currentState
  · simp [setState, h]
  · simp [setState, h]

/-- `setState` never touches the pairing student name. -/
theorem setState_pairingStudentName (st : StateMachine) (m : DeviceState) (now : Nat) :
    (setState st m now).pairingStudentName = st.pairingStudentName := by
  unfold setState
  split <;> rfl

/-- Unsigned 32-bit subtraction agrees with `Nat` subtraction when the
minuend is at least the subtrahend and no wraparound occurs. -/
theorem usub32_eq_sub (a b : Nat) (hb : b < UINT32_MOD) (hba : b ≤ a)
    (hd : a - b < UINT32_MOD) : usub32 a b = a - b := by
  unfold usub32 UINT32_MOD at *
  omega

/-- A non-empty string has positive length. -/
theorem string_length_pos (s : String) (h : s ≠ "") : 0 < s.length := by
  cases s with
  | mk data =>
    cases data with
    | nil => exact absurd rfl h
    | cons a as => simp [String.length]

/-! ## Claim theorems: state machine -/

/-- C4: after `enterPairingMode s` the stored identity is `s` and the mode
is `PAIRING_MODE`; after a subsequent `exitPairingMode` the identity is
empty and the mode is `IDLE`, from any prior state; and `exitPairingMode`
clears the identity and returns to `IDLE` from any state whatsoever. -/
theorem pairing_session_invariant (st : StateMachine) (s : String) (t1 t2 : Nat) :
    getCurrentStudentName (enterPairingMode st s t1) = s ∧
    (enterPairingMode st s t1).currentState = DeviceState.PAIRING_MODE ∧
    getCurrentStudentName (exitPairingMode (enterPairingMode st s t1) t2) = "" ∧
    (exitPairingMode (enterPairingMode st s t1) t2).currentState = DeviceState.IDLE ∧
    getCurrentStudentName (exitPairingMode st t2) = "" ∧
    (exitPairingMode st t2).currentState = DeviceState.IDLE := by
  refine ⟨?_, ?_, ?_, ?_, ?_, ?_⟩ <;>
    simp [getCurrentStudentName, enterPairingMode, exitPairingMode,
          setState_currentState, setState_pairingStudentName]

/-- C5: a `setState` to the mode already current changes nothing — entry
timestamp, current mode and previous mode are untouched — so `getTimeInState`
still measures from the first transition into that mode. -/
theorem setState_same_mode_noop (st : StateMachine) (m : DeviceState) (now : Nat)
    (h : st.currentState = m) :
    setState st m now = st ∧
    ∀ t, getTimeInState (setState st m now) t = getTimeInState st t := by
  have heq : setState st m now = st := setState_self st m now h
  exact ⟨heq, fun t => by rw [heq]⟩

/-- Witness for C5 at a concrete state and mode. -/
theorem setState_same_mode_noop_witness :
    stateMachineInit.currentState = DeviceState.INITIALIZING ∧
    setState stateMachineInit DeviceState.INITIALIZING 500 = stateMachineInit :=
  ⟨rfl, (setState_same_mode_noop stateMachineInit DeviceState.INITIALIZING 500 rfl).1⟩

/-- C6 counterexample: with threshold `T = 0`, `hasTimedOut` is already
true at the very instant a mode is entered (elapsed time 0 ≥ 0), refuting
"false immediately after entering a mode ... for every threshold T ≥ 0". -/
theorem hasTimedOut_zero_threshold_at_entry :
    hasTimedOut (setState stateMachineInit DeviceState.IDLE 1000) 1000 0 = true := by
  decide

/-- C6 (amended): for every threshold `T > 0`, `hasTimedOut T` is false at
the instant a mode is entered, and — while the elapsed time does not wrap
the 32-bit clock — it is true exactly when the elapsed time reaches `T`. -/
theorem hasTimedOut_threshold (st : StateMachine) (m : DeviceState)
    (t0 T now : Nat) (hm : m ≠ st.currentState) (hT : 0 < T)
    (h0 : t0 < UINT32_MOD) (h1 : t0 ≤ now) (h2 : now - t0 < UINT32_MOD) :
    hasTimedOut (setState st m t0) t0 T = false ∧
    (hasTimedOut (setState st m t0) now T = true ↔ T ≤ now - t0) := by
  have hentry : (setState st m t0).stateEnteredAt = t0 := by
    rw [setState_of_ne st m t0 hm]
  constructor
  · have h : getTimeInState (setState st m t0) t0 = 0 := by
      rw [getTimeInState, hentry, usub32_eq_sub t0 t0 h0 le_rfl (by omega)]
      omega
    simp [hasTimedOut, h]
    omega
  · have h : getTimeInState (setState st m t0) now = now - t0 := by
      rw [getTimeInState, hentry, usub32_eq_sub now t0 h0 h1 h2]
    simp [hasTimedOut, h]

/-- Witness for C6 at concrete timestamps and threshold. -/
theorem hasTimedOut_threshold_witness :
    hasTimedOut (setState stateMachineInit DeviceState.IDLE 1000) 1000 5 = false ∧
    (hasTimedOut (setState stateMachineInit DeviceState.IDLE 1000) 1005 5 = true ↔
      5 ≤ 1005 - 1000) :=
  hasTimedOut_threshold stateMachineInit DeviceState.IDLE 1000 5 1005
    (by decide) (by decide) (by decide) (by decide) (by decide)

/-- C10: `exitPairingMode` called while already in `IDLE` clears the
pairing identity but leaves the entry timestamp and previous mode alone
(the `IDLE → IDLE` `setState` is a no-op), so dwell time in `IDLE` keeps
accumulating across such calls. -/
theorem exitPairingMode_idle_frame (st : StateMachine) (t : Nat)
    (h : st.currentState = DeviceState.IDLE) :
    exitPairingMode st t = { st with pairingStudentName := "" } ∧
    ∀ now, getTimeInState (exitPairingMode st t) now = getTimeInState st now := by
  have heq : exitPairingMode st t = { st with pairingStudentName := "" } := by
    rw [exitPairingMode]
    exact setState_self _ _ _ h
  refine ⟨heq, fun now => ?_⟩
  rw [heq, getTimeInState, getTimeInState]

/-- Witness for C10 at a concrete `IDLE` state. -/
theorem exitPairingMode_idle_frame_witness :
    exitPairingMode
        ⟨DeviceState.IDLE, DeviceState.INITIALIZING, "Alice", 1000⟩ 2000 =
      ⟨DeviceState.IDLE, DeviceState.INITIALIZING, "", 1000⟩ :=
  (exitPairingMode_idle_frame
    ⟨DeviceState.IDLE, DeviceState.INITIALIZING, "Alice", 1000⟩ 2000 rfl).1

/-! ## Claim theorems: transport retry policy -/

/-- C2: a positive (definite) transport status on the first attempt makes
both `sendPostRequest` and `sendGetRequest` return that status and body
after exactly one attempt; at most `API_MAX_RETRIES = 3` attempts ever
occur; and every attempt before the last one performed had a non-positive
status (retries happen only on failure to get any response). -/
theorem sendRequest_retry_policy (t : Nat → Attempt) :
    (0 < (t 0).code →
      sendPostRequest t = ⟨(t 0).code, (t 0).body, 1⟩ ∧
      sendGetRequest t = ⟨(t 0).code, (t 0).body, 1⟩) ∧
    (sendPostRequest t).attempts ≤ API_MAX_RETRIES ∧
    (∀ k, k + 1 < (sendPostRequest t).attempts → (t k).code ≤ 0) ∧
    sendGetRequest t = sendPostRequest t := by
  by_cases h0 : 0 < (t 0).code
  · refine ⟨fun _ => ?_, ?_, ?_, ?_⟩ <;>
      simp [sendPostRequest, sendGetRequest, API_MAX_RETRIES, retryLoop, h0]
  · by_cases h1 : 0 < (t 1).code
    · refine ⟨fun h => absurd h h0, ?_, ?_, ?_⟩ <;>
        simp [sendPostRequest, sendGetRequest, API_MAX_RETRIES, retryLoop, h0, h1]
      intro k hk
      have hk0 : k = 0 := by omega
      rw [hk0]
      omega
    · by_cases h2 : 0 < (t 2).code
      · refine ⟨fun h => absurd h h0, ?_, ?_, ?_⟩ <;>
          simp [sendPostRequest, sendGetRequest, API_MAX_RETRIES, retryLoop, h0, h1, h2]
        intro k hk
        have hk01 : k = 0 ∨ k = 1 := by omega
        rcases hk01 with h | h <;> rw [h] <;> omega
      · refine ⟨fun h => absurd h h0, ?_, ?_, ?_⟩ <;>
          simp [sendPostRequest, sendGetRequest, API_MAX_RETRIES, retryLoop, h0, h1, h2]
        intro k hk
        have hk01 : k = 0 ∨ k = 1 := by omega
        rcases hk01 with h | h <;> rw [h] <;> omega

/-- Witness for C2: a transport answering 200 at once is returned after a
single attempt. -/
theorem sendRequest_retry_policy_witness :
    0 < ((fun _ => (⟨200, none⟩ : Attempt)) 0).code ∧
    sendPostRequest (fun _ => (⟨200, none⟩ : Attempt)) = ⟨200, none, 1⟩ :=
  ⟨by decide,
    ((sendRequest_retry_policy (fun _ => (⟨200, none⟩ : Attempt))).1 (by decide)).1⟩

/-! ## Claim theorems: client operations -/

/-- C1: on an HTTP 200 attendance response whose body parses and carries a
non-empty `data.student_name`, `recordAttendance` reports success, whatever
the top-level and nested success flags say. -/
theorem recordAttendance_name_implies_success (c : Client) (t : Nat → Attempt)
    (rfid : String) (j : JValue)
    (hc : isConfigured c = true)
    (h200 : (sendPostRequest t).code = 200)
    (hbody : (sendPostRequest t).body = some j)
    (hname : jStrD (jGet (jGet j "data") "student_name") "" ≠ "") :
    (recordAttendance c t rfid).resp.success = true := by
  have hlen : 0 < (jStrD (jGet (jGet j "data") "student_name") "").length :=
    string_length_pos _ hname
  simp [recordAttendance, hc, h200, hbody, hlen]

/-- Witness for C1: both success flags false, name "Alice" present. -/
theorem recordAttendance_name_implies_success_witness :
    isConfigured ⟨"http://srv", "key", 0⟩ = true ∧
    (recordAttendance ⟨"http://srv", "key", 0⟩
      (fun _ => ⟨200, some (JValue.obj
        [("success", JValue.bool false),
         ("data", JValue.obj
           [("success", JValue.bool false),
            ("student_name", JValue.str "Alice")])])⟩) "card1").resp.success = true :=
  ⟨by decide,
    recordAttendance_name_implies_success ⟨"http://srv", "key", 0⟩
      (fun _ => ⟨200, some (JValue.obj
        [("success", JValue.bool false),
         ("data", JValue.obj
           [("success", JValue.bool false),
            ("student_name", JValue.str "Alice")])])⟩) "card1"
      (JValue.obj
        [("success", JValue.bool false),
         ("data", JValue.obj
           [("success", JValue.bool false),
            ("student_name", JValue.str "Alice")])])
      (by decide) (by decide) rfl (by decide)⟩

/-- C3 counterexample: an unconfigured `checkPairingStatus` returns an
empty message, not the configuration-error message the other operations
carry. -/
theorem checkPairingStatus_notConfigured_message_empty :
    (checkPairingStatus ⟨"", "", 5⟩ (fun _ => ⟨200, none⟩)).resp.message = "" ∧
    "" ≠ "API not configured" := by
  exact ⟨by decide, by decide⟩

/-- C3 (amended): while unconfigured, every operation fails fast with
`success = false`, makes no transport attempt and leaves the client
unchanged; `validateAPIKey`, `recordAttendance` and `processPairing` carry
the configuration-error message, while `checkPairingStatus` returns the
zero outcome with an empty message. -/
theorem notConfigured_fails_fast (c : Client) (t : Nat → Attempt) (rfid : String)
    (h : isConfigured c = false) :
    validateAPIKey c t = ⟨⟨false, false, 0, 0, "API not configured"⟩, c, 0⟩ ∧
    recordAttendance c t rfid = ⟨⟨false, "", "", "API not configured", ""⟩, c, 0⟩ ∧
    processPairing c t rfid = ⟨⟨false, "", "API not configured", false⟩, c, 0⟩ ∧
    checkPairingStatus c t = ⟨⟨false, "", "", false⟩, c, 0⟩ := by
  refine ⟨?_, ?_, ?_, ?_⟩ <;>
    simp [validateAPIKey, recordAttendance, processPairing, checkPairingStatus, h]

/-- Witness for C3 at the freshly constructed (unconfigured) client. -/
theorem notConfigured_fails_fast_witness :
    isConfigured clientInit = false ∧
    validateAPIKey clientInit (fun _ => ⟨200, none⟩) =
      ⟨⟨false, false, 0, 0, "API not configured"⟩, clientInit, 0⟩ :=
  ⟨by decide,
    (notConfigured_fails_fast clientInit (fun _ => ⟨200, none⟩) "card" (by decide)).1⟩

/-- C9 counterexample: a 200 validation response with an unparsable body
yields the message "JSON parse error", which is not the literal
"decode error" the claim states. -/
theorem validate_malformed_message_literal :
    (validateAPIKey ⟨"http://srv", "key", 0⟩ (fun _ => ⟨200, none⟩)).resp.message =
      "JSON parse error" ∧
    "JSON parse error" ≠ "decode error" := by
  exact ⟨by decide, by decide⟩

/-- C9 (amended): on an HTTP 200 validation response whose body fails to
parse, the outcome is a failure carrying the message "JSON parse error". -/
theorem validate_malformed_body (c : Client) (t : Nat → Attempt)
    (hc : isConfigured c = true)
    (h200 : (sendPostRequest t).code = 200)
    (hbody : (sendPostRequest t).body = none) :
    (validateAPIKey c t).resp.success = false ∧
    (validateAPIKey c t).resp.message = "JSON parse error" := by
  simp [validateAPIKey, hc, h200, hbody]

/-- Witness for C9 at a concrete configured client and transport. -/
theorem validate_malformed_body_witness :
    isConfigured ⟨"http://srv", "key", 0⟩ = true ∧
    (validateAPIKey ⟨"http://srv", "key", 0⟩ (fun _ => ⟨200, none⟩)).resp.message =
      "JSON parse error" :=
  ⟨by decide,
    (validate_malformed_body ⟨"http://srv", "key", 0⟩ (fun _ => ⟨200, none⟩)
      (by decide) (by decide) rfl).2⟩

/-- C7 counterexample: a second successful validation carrying a different
`device_id` overwrites the learned identifier — it is not written exactly
once by the first successful validation. -/
theorem deviceId_overwritten_by_second_validation :
    (validateAPIKey ⟨"http://srv", "key", 0⟩
      (fun _ => ⟨200, some (JValue.obj
        [("success", JValue.bool true),
         ("data", JValue.obj
           [("valid", JValue.bool true),
            ("device_id", JValue.num 7)])])⟩)).client.deviceId = 7 ∧
    (validateAPIKey
      (validateAPIKey ⟨"http://srv", "key", 0⟩
        (fun _ => ⟨200, some (JValue.obj
          [("success", JValue.bool true),
           ("data", JValue.obj
             [("valid", JValue.bool true),
              ("device_id", JValue.num 7)])])⟩)).client
      (fun _ => ⟨200, some (JValue.obj
        [("success", JValue.bool true),
         ("data", JValue.obj
           [("valid", JValue.bool true),
            ("device_id", JValue.num 9)])])⟩)).client.deviceId = 9 := by
  exact ⟨by decide, by decide⟩

/-- C7 (amended): the learned device identifier starts at zero; attendance,
pairing and pairing-status operations never touch the client state; and a
validation either leaves the identifier unchanged or — when it succeeds
with `valid` and a positive returned id — stores that id. In particular no
operation ever clears a learned identifier back to zero. -/
theorem deviceId_write_discipline :
    clientInit.deviceId = 0 ∧
    (∀ c t rfid, (recordAttendance c t rfid).client = c) ∧
    (∀ c t rfid, (processPairing c t rfid).client = c) ∧
    (∀ c t, (checkPairingStatus c t).client = c) ∧
    (∀ c t, (validateAPIKey c t).client.deviceId = c.deviceId ∨
      ((validateAPIKey c t).resp.valid = true ∧
       0 < (validateAPIKey c t).resp.deviceId ∧
       (validateAPIKey c t).client.deviceId = (validateAPIKey c t).resp.deviceId)) := by
  refine ⟨rfl, ?_, ?_, ?_, ?_⟩
  · intro c t rfid
    unfold recordAttendance
    dsimp only
    split
    · rfl
    · split
      · split <;> rfl
      · split
        · split <;> rfl
        · rfl
  · intro c t rfid
    unfold processPairing
    dsimp only
    split
    · rfl
    · split
      · split <;> rfl
      · split
        · rfl
        · split
          · split <;> rfl
          · rfl
  · intro c t
    unfold checkPairingStatus
    dsimp only
    split
    · rfl
    · split
      · split
        · split <;> rfl
        · rfl
      · rfl
  · intro c t
    unfold validateAPIKey
    dsimp only
    split
    · left; rfl
    · split
      · split
        · split
          · split
            · next h => right; exact ⟨h.1, h.2, rfl⟩
            · left; rfl
          · left; rfl
        · left; rfl
      · left; rfl

/-- C8 counterexample: a 200 pairing-status response with a decodable
nested data section but a false top-level success flag is ignored — the
outcome's `sessionActive` stays false although `data.active` is true. -/
theorem checkPairingStatus_ignores_data_without_success :
    (checkPairingStatus ⟨"http://srv", "key", 7⟩
      (fun _ => ⟨200, some (JValue.obj
        [("success", JValue.bool false),
         ("data", JValue.obj
           [("active", JValue.bool true),
            ("student_name", JValue.str "Bob")])])⟩)).resp.sessionActive = false ∧
    jBoolD (jGet (jGet (JValue.obj
        [("success", JValue.bool false),
         ("data", JValue.obj
           [("active", JValue.bool true),
            ("student_name", JValue.str "Bob")])]) "data") "active") false = true := by
  exact ⟨by decide, by decide⟩

/-- C8 (amended): on an HTTP 200 pairing-status response whose body parses,
whose top-level success flag is true and which contains a data section, the
outcome carries `sessionActive = data.active` and
`subjectName = data.student_name`; a body that fails to parse yields the
zero outcome. -/
theorem checkPairingStatus_decode (c : Client) (t : Nat → Attempt) (j : JValue)
    (hc : isConfigured c = true) (hd : c.deviceId ≠ 0)
    (h200 : (sendGetRequest t).code = 200) :
    ((sendGetRequest t).body = some j →
      jBoolD (jGet j "success") false = true →
      jHasKey j "data" = true →
      (checkPairingStatus c t).resp.sessionActive =
        jBoolD (jGet (jGet j "data") "active") false ∧
      (checkPairingStatus c t).resp.studentName =
        jStrD (jGet (jGet j "data") "student_name") "") ∧
    ((sendGetRequest t).body = none →
      (checkPairingStatus c t).resp = ⟨false, "", "", false⟩) := by
  constructor
  · intro hbody hsucc hkey
    constructor <;> simp [checkPairingStatus, hc, hd, h200, hbody, hsucc, hkey]
  · intro hbody
    simp [checkPairingStatus, hc, hd, h200, hbody]

/-- Witness for C8: an active session for "Bob" is surfaced. -/
theorem checkPairingStatus_decode_witness :
    (checkPairingStatus ⟨"http://srv", "key", 7⟩
      (fun _ => ⟨200, some (JValue.obj
        [("success", JValue.bool true),
         ("data", JValue.obj
           [("active", JValue.bool true),
            ("student_name", JValue.str "Bob")])])⟩)).resp.sessionActive = true :=
  (((checkPairingStatus_decode ⟨"http://srv", "key", 7⟩
      (fun _ => ⟨200, some (JValue.obj
        [("success", JValue.bool true),
         ("data", JValue.obj
           [("active", JValue.bool true),
            ("student_name", JValue.str "Bob")])])⟩)
      (JValue.obj
        [("success", JValue.bool true),
         ("data", JValue.obj
           [("active", JValue.bool true),
            ("student_name", JValue.str "Bob")])])
      (by decide) (by decide) (by decide)).1 rfl (by decide) (by decide)).1.trans
    (by decide))
